import Mathlib

/-!
Shallow embedding of the contact-book backend (FastAPI + SQLAlchemy service):
the contact repository (`src/repository/contacts.py`), the user repository
(`src/repository/users.py`), the token-handling service (`src/services/auth.py`)
and the auth routes (`src/routes/auth.py`).

The relational store is modelled as a Lean list of records; `query.filter(...).first()`
becomes `(List.filter p db).head?`, and SQLAlchemy's in-place mutation of a fetched
record becomes replacement of the first matching record in the list.  Python dates
are modelled by a year/month/day record with the proleptic-Gregorian day-of-year
ordinal (`timetuple().tm_yday`) and day-stepping (`timedelta(days=n)`).  JWT
decoding is modelled by its outcome: a decode failure (bad signature / expired /
malformed, all raising `JWTError`) or a decoded payload whose claims may be absent,
JSON-null, or a string.  Uncaught Python exceptions (`KeyError`, `AttributeError`)
are distinguished from `HTTPException(status, detail)`.
-/

/-- A stored user record (`src/database/models.User`, fields used by the core). -/
structure User where
  id : Nat
  username : String
  email : String
  password : String
  confirmed : Bool
  refresh_token : Option String
deriving Repr, DecidableEq

/-- A Python `datetime.date`: calendar year, month (1-12), day (1-31). -/
structure PyDate where
  year : Nat
  month : Nat
  day : Nat
deriving Repr, DecidableEq

/-- Gregorian leap-year rule, as used by Python's `datetime`. -/
def isLeapYear (y : Nat) : Bool :=
  y % 4 == 0 && (y % 100 != 0 || y % 400 == 0)

/-- Number of days in a month of a given year. -/
def daysInMonth (y m : Nat) : Nat :=
  if m == 2 then (if isLeapYear y then 29 else 28)
  else if m == 4 || m == 6 || m == 9 || m == 11 then 30
  else 31

/-- `date.timetuple().tm_yday`: the 1-based ordinal of the date within its year. -/
def dayOfYear (d : PyDate) : Nat :=
  (List.range (d.month - 1)).foldl (fun acc i => acc + daysInMonth d.year (i + 1)) 0 + d.day

/-- The day after `d` (month and year roll over). -/
def nextDay (d : PyDate) : PyDate :=
  if d.day < daysInMonth d.year d.month then { d with day := d.day + 1 }
  else if d.month < 12 then { year := d.year, month := d.month + 1, day := 1 }
  else { year := d.year + 1, month := 1, day := 1 }

/-- `d + timedelta(days := n)`. -/
def addDays (d : PyDate) (n : Nat) : PyDate :=
  Nat.iterate nextDay n d

/-- `d.replace(year := y)` (total here; Python raises `ValueError` when the
result is not a valid date, which only happens for Feb 29 into a non-leap year). -/
def replaceYear (d : PyDate) (y : Nat) : PyDate :=
  { d with year := y }

/-- Whether `d` is a valid calendar date (the domain on which `replaceYear`
agrees with Python's `date.replace`). -/
def validDate (d : PyDate) : Bool :=
  1 ≤ d.month && d.month ≤ 12 && 1 ≤ d.day && d.day ≤ daysInMonth d.year d.month

/-- Python's `str.lower()` (and SQL `lower()`): fold every character to lower
case.  Defined by structural recursion over the characters so that concrete
instances evaluate. -/
def strLower (s : String) : String :=
  String.mk (s.data.map Char.toLower)

/-- A stored contact record (`src/database/models.Contact`). -/
structure Contact where
  id : Nat
  user_id : Nat
  first_name : String
  last_name : String
  email : String
  phone_number : String
  birthday_date : PyDate
deriving Repr, DecidableEq

/-- The `ContactUpdate` request body: all five fields, mandatory. -/
structure ContactUpdate where
  first_name : String
  last_name : String
  email : String
  phone_number : String
  birthday_date : PyDate
deriving Repr, DecidableEq

/-- Replace the first element satisfying `p` (SQLAlchemy's in-place mutation of
the record returned by `.first()`, visible through the session). -/
def replaceFirst {α : Type} (p : α → Bool) (new : α) : List α → List α
  | [] => []
  | x :: rest => if p x then new :: rest else x :: replaceFirst p new rest

/-- `repository.contacts.get_contact`:
`db.query(Contact).filter(and_(Contact.id == contact_id, Contact.user_id == user.id)).first()`. -/
def get_contact (contact_id : Nat) (user : User) (db : List Contact) : Option Contact :=
  (db.filter (fun c => c.id == contact_id && c.user_id == user.id)).head?

/-- `repository.contacts.update_contact`: fetch by id and owner; if present,
overwrite all five fields and commit; return the (updated) record or `None`.
Result: (returned value, store after the call). -/
def update_contact (contact_id : Nat) (body : ContactUpdate) (user : User)
    (db : List Contact) : Option Contact × List Contact :=
  match (db.filter (fun c => c.id == contact_id && c.user_id == user.id)).head? with
  | none => (none, db)
  | some contact =>
      let updated : Contact :=
        { contact with
          first_name := body.first_name
          last_name := body.last_name
          email := body.email
          phone_number := body.phone_number
          birthday_date := body.birthday_date }
      (some updated,
        replaceFirst (fun c => c.id == contact_id && c.user_id == user.id) updated db)

/-- `repository.contacts.delete_contact`: fetch by id and owner; if present,
delete and commit; return the fetched record or `None`. -/
def delete_contact (contact_id : Nat) (user : User) (db : List Contact) :
    Option Contact × List Contact :=
  match (db.filter (fun c => c.id == contact_id && c.user_id == user.id)).head? with
  | none => (none, db)
  | some contact =>
      (some contact, db.eraseP (fun c => c.id == contact_id && c.user_id == user.id))

/-- `repository.contacts.get_contact_by_first_name`:
owner-scoped, `func.lower(Contact.first_name) == contact_first_name.lower()`, `.first()`. -/
def get_contact_by_first_name (contact_first_name : String) (user : User)
    (db : List Contact) : Option Contact :=
  (db.filter (fun c =>
    c.user_id == user.id && strLower c.first_name == strLower contact_first_name)).head?

/-- `repository.contacts.get_contact_by_last_name`. -/
def get_contact_by_last_name (contact_last_name : String) (user : User)
    (db : List Contact) : Option Contact :=
  (db.filter (fun c =>
    c.user_id == user.id && strLower c.last_name == strLower contact_last_name)).head?

/-- `repository.contacts.get_contacts_upcoming_birthdays`: fetch the owner's
contacts, then keep each contact whose birthday, with its year replaced by the
current year, has `today.tm_yday <= birthday.tm_yday <= (today + 7 days).tm_yday`. -/
def get_contacts_upcoming_birthdays (date_today : PyDate) (user : User)
    (db : List Contact) : List Contact :=
  let today_plus_week := addDays date_today 7
  let contacts := db.filter (fun c => c.user_id == user.id)
  contacts.filter (fun contact =>
    let birthday := replaceYear contact.birthday_date date_today.year
    decide (dayOfYear date_today ≤ dayOfYear birthday) &&
      decide (dayOfYear birthday ≤ dayOfYear today_plus_week))

/-- `repository.users.get_user_by_email`:
`db.query(User).filter(User.email == email).first()`. -/
def get_user_by_email (email : String) (db : List User) : Option User :=
  (db.filter (fun u => u.email == email)).head?

/-- `repository.users.update_token`: set `user.refresh_token = token` on the
fetched record and commit. -/
def update_token (user : User) (token : Option String) (db : List User) : List User :=
  replaceFirst (fun u => u.id == user.id) { user with refresh_token := token } db

/-- A JSON claim value inside a decoded JWT payload: the key may be absent,
bound to JSON null, or bound to a string. -/
inductive ClaimValue where
  | absent
  | null
  | str (s : String)
deriving Repr, DecidableEq

/-- The decoded JWT payload fields the service reads. -/
structure Payload where
  sub : ClaimValue
  scope : ClaimValue
deriving Repr, DecidableEq

/-- Outcome of `jose.jwt.decode(token, SECRET_KEY, algorithms=[ALGORITHM])`:
an invalid signature, an expired token and a malformed token all raise
`JWTError`; otherwise the payload is returned. -/
inductive JwtOutcome where
  | badSignature
  | expired
  | malformed
  | decoded (payload : Payload)
deriving Repr, DecidableEq

/-- Observable result of a Python call: a normal return, a raised
`HTTPException(status_code, detail)`, or an uncaught Python exception. -/
inductive PyResult (α : Type) where
  | ok (value : α)
  | httpError (statusCode : Nat) (detail : String)
  | pyError (exc : String)
deriving Repr, DecidableEq

/-- `Auth.decode_refresh_token`: decode; `JWTError` becomes 401
"Could not validate credentials"; a scope other than `refresh_token` raises 401
"Invalid scope for token"; otherwise `payload['sub']` is returned as-is
(an absent key raises `KeyError`, uncaught). -/
def decode_refresh_token (outcome : JwtOutcome) : PyResult ClaimValue :=
  match outcome with
  | .badSignature => .httpError 401 "Could not validate credentials"
  | .expired => .httpError 401 "Could not validate credentials"
  | .malformed => .httpError 401 "Could not validate credentials"
  | .decoded payload =>
    match payload.scope with
    | .absent => .pyError "KeyError"
    | .null => .httpError 401 "Invalid scope for token"
    | .str scope =>
      if scope == "refresh_token" then
        match payload.sub with
        | .absent => .pyError "KeyError"
        | sub => .ok sub
      else .httpError 401 "Invalid scope for token"

/-- `Auth.get_current_user`: decode the bearer token; any `JWTError`, a scope
other than `access_token`, a falsy subject, or an unknown user yields 401
"Could not validate credentials"; an absent `scope` or `sub` key raises
`KeyError` (uncaught); otherwise the user looked up by the subject email. -/
def get_current_user (token : JwtOutcome) (db : List User) : PyResult User :=
  match token with
  | .badSignature => .httpError 401 "Could not validate credentials"
  | .expired => .httpError 401 "Could not validate credentials"
  | .malformed => .httpError 401 "Could not validate credentials"
  | .decoded payload =>
    match payload.scope with
    | .absent => .pyError "KeyError"
    | .null => .httpError 401 "Could not validate credentials"
    | .str scope =>
      if scope == "access_token" then
        match payload.sub with
        | .absent => .pyError "KeyError"
        | .null => .httpError 401 "Could not validate credentials"
        | .str email =>
          if email == "" then .httpError 401 "Could not validate credentials"
          else
            match get_user_by_email email db with
            | none => .httpError 401 "Could not validate credentials"
            | some user => .ok user
      else .httpError 401 "Could not validate credentials"

/-- The (access, refresh) pair returned by `login` and `refresh_token`. -/
structure TokenPair where
  access_token : String
  refresh_token : String
deriving Repr, DecidableEq

/-- `routes.auth.login`: look the user up by the submitted username (an email);
absent user or failed password check yield 401 "Invalid email or password", an
unconfirmed user yields 401 "Email not confirmed"; on success a fresh token
pair is issued and the new refresh token stored.  `verify` stands for
`auth_service.verify_password` (bcrypt), `newAccess`/`newRefresh` for the
freshly encoded tokens. -/
def login (verify : String → String → Bool) (newAccess newRefresh : String)
    (username password : String) (db : List User) : PyResult TokenPair × List User :=
  match get_user_by_email username db with
  | none => (.httpError 401 "Invalid email or password", db)
  | some user =>
    if !user.confirmed then (.httpError 401 "Email not confirmed", db)
    else if !(verify password user.password) then
      (.httpError 401 "Invalid email or password", db)
    else
      (.ok { access_token := newAccess, refresh_token := newRefresh },
        update_token user (some newRefresh) db)

/-- `routes.auth.refresh_token`: decode the presented token as a refresh token,
look the user up by the decoded email (`user.refresh_token` on a `None` user
raises `AttributeError`, uncaught); a stored token differing from the presented
one is cleared and 401 "Invalid refresh token" raised; otherwise a fresh pair
is issued and the stored refresh token rotated.  `decode` stands for
`jwt.decode` applied to a token string. -/
def refresh_token (decode : String → JwtOutcome) (newAccess newRefresh : String)
    (token : String) (db : List User) : PyResult TokenPair × List User :=
  match decode_refresh_token (decode token) with
  | .pyError e => (.pyError e, db)
  | .httpError s d => (.httpError s d, db)
  | .ok emailClaim =>
    match (match emailClaim with
           | .str email => get_user_by_email email db
           | _ => none) with
    | none => (.pyError "AttributeError", db)
    | some user =>
      if user.refresh_token != some token then
        (.httpError 401 "Invalid refresh token", update_token user none db)
      else
        (.ok { access_token := newAccess, refresh_token := newRefresh },
          update_token user (some newRefresh) db)

/-- Observable outcome of `routes.auth.request_email`: the returned message (or
uncaught exception), the emails queued for sending, and — when the `if user:`
guard is evaluated — the value it evaluated to. -/
structure RequestEmailResult where
  result : PyResult String
  sends : List String
  guardEval : Option Bool
deriving Repr, DecidableEq

/-- `routes.auth.request_email`: look the user up by the submitted email;
`user.confirmed` on a `None` user raises `AttributeError` (uncaught); a
confirmed user short-circuits with "Your email is already confirmed"; otherwise
the `if user:` guard is evaluated on the fetched record and the confirmation
email queued when it holds. -/
def request_email (email : String) (db : List User) : RequestEmailResult :=
  match get_user_by_email email db with
  | none => { result := .pyError "AttributeError", sends := [], guardEval := none }
  | some user =>
    if user.confirmed then
      { result := .ok "Your email is already confirmed", sends := [], guardEval := none }
    else
      { result := .ok "Check your email for confirmation",
        sends := if (some user).isSome then [user.email] else [],
        guardEval := some (some user).isSome }

/-! Concrete fixtures used by witness and counterexample theorems. -/

/-- A confirmed user owning the sample contact. -/
def aliceUser : User :=
  { id := 10, username := "alice", email := "alice@example.com",
    password := "hashA", confirmed := true, refresh_token := none }

/-- A second, distinct user. -/
def bobUser : User :=
  { id := 20, username := "bob", email := "bob@example.com",
    password := "hashB", confirmed := true, refresh_token := none }

/-- A contact owned by `aliceUser`. -/
def aliceContact : Contact :=
  { id := 1, user_id := 10, first_name := "John", last_name := "Doe",
    email := "john@example.com", phone_number := "123",
    birthday_date := { year := 1990, month := 6, day := 8 } }

/-- A full update body. -/
def updBody : ContactUpdate :=
  { first_name := "New", last_name := "Name", email := "new@example.com",
    phone_number := "999", birthday_date := { year := 1991, month := 1, day := 2 } }

/-- C1: Tenant isolation — when every stored contact with id `A.id` belongs to
`A`'s owner and that owner differs from `B`, `get_contact`, `update_contact`
and `delete_contact` invoked by `B` with id `A.id` return `none` and leave the
store unchanged: each query filters by both contact id and owner id. -/
theorem contacts_tenant_isolation (A : Contact) (B : User) (body : ContactUpdate)
    (db : List Contact) (hA : A ∈ db) (hOwner : A.user_id ≠ B.id)
    (hUnique : ∀ c ∈ db, c.id = A.id → c.user_id = A.user_id) :
    get_contact A.id B db = none ∧
    update_contact A.id body B db = (none, db) ∧
    delete_contact A.id B db = (none, db) := by
  have hf : db.filter (fun c => c.id == A.id && c.user_id == B.id) = [] := by
    rw [List.filter_eq_nil_iff]
    intro c hc
    simp only [Bool.and_eq_true, beq_iff_eq, not_and]
    intro h1 h2
    exact hOwner ((hUnique c hc h1).symm.trans h2)
  refine ⟨?_, ?_, ?_⟩
  · unfold get_contact
    rw [hf]
    rfl
  · unfold update_contact
    rw [hf]
    rfl
  · unfold delete_contact
    rw [hf]
    rfl

/-- Witness for C1 at a concrete store: Bob cannot read, update or delete
Alice's contact. -/
theorem contacts_tenant_isolation_witness :
    get_contact aliceContact.id bobUser [aliceContact] = none ∧
    update_contact aliceContact.id updBody bobUser [aliceContact] = (none, [aliceContact]) ∧
    delete_contact aliceContact.id bobUser [aliceContact] = (none, [aliceContact]) :=
  contacts_tenant_isolation aliceContact bobUser updBody [aliceContact]
    (by decide) (by decide) (by decide)

/-- C6: Update on absence — when no stored contact matches both the id and the
owner, `update_contact` returns `none` and the contact store is returned
unchanged (no record is created or modified). -/
theorem update_contact_absent_no_mutation (contact_id : Nat) (body : ContactUpdate)
    (user : User) (db : List Contact)
    (h : ∀ c ∈ db, ¬(c.id = contact_id ∧ c.user_id = user.id)) :
    update_contact contact_id body user db = (none, db) := by
  have hf : db.filter (fun c => c.id == contact_id && c.user_id == user.id) = [] := by
    rw [List.filter_eq_nil_iff]
    intro c hc
    simpa using h c hc
  unfold update_contact
  rw [hf]
  rfl

/-- Witness for C6: updating a non-existent id mutates nothing. -/
theorem update_contact_absent_no_mutation_witness :
    update_contact 99 updBody bobUser [aliceContact] = (none, [aliceContact]) :=
  update_contact_absent_no_mutation 99 updBody bobUser [aliceContact] (by decide)

/-- C7: Case-insensitive name search — queries equal up to letter case give the
same result for `get_contact_by_first_name` and `get_contact_by_last_name`
(both sides are folded with `lower` before comparing), and each returns only
the first matching contact. -/
theorem name_search_case_insensitive (q1 q2 : String) (user : User) (db : List Contact)
    (h : strLower q1 = strLower q2) :
    get_contact_by_first_name q1 user db = get_contact_by_first_name q2 user db ∧
    get_contact_by_last_name q1 user db = get_contact_by_last_name q2 user db ∧
    get_contact_by_first_name q1 user db =
      db.find? (fun c => c.user_id == user.id && strLower c.first_name == strLower q1) ∧
    get_contact_by_last_name q1 user db =
      db.find? (fun c => c.user_id == user.id && strLower c.last_name == strLower q1) := by
  unfold get_contact_by_first_name get_contact_by_last_name
  rw [h]
  exact ⟨rfl, rfl, List.filter_head? _ _, List.filter_head? _ _⟩

/-- Witness for C7: searching "JOHN" and "john" returns the same contact, and
the result is the first match. -/
theorem name_search_case_insensitive_witness :
    get_contact_by_first_name "JOHN" aliceUser [aliceContact] =
      get_contact_by_first_name "john" aliceUser [aliceContact] ∧
    get_contact_by_last_name "JOHN" aliceUser [aliceContact] =
      get_contact_by_last_name "john" aliceUser [aliceContact] ∧
    get_contact_by_first_name "JOHN" aliceUser [aliceContact] =
      List.find?
        (fun c => c.user_id == aliceUser.id && strLower c.first_name == strLower "JOHN")
        [aliceContact] ∧
    get_contact_by_last_name "JOHN" aliceUser [aliceContact] =
      List.find?
        (fun c => c.user_id == aliceUser.id && strLower c.last_name == strLower "JOHN")
        [aliceContact] :=
  name_search_case_insensitive "JOHN" "john" aliceUser [aliceContact] (by decide)

/-- C10: `request_email` reads `user.confirmed` before any existence check, so
an unknown email raises an uncaught `AttributeError` instead of returning a
message, and the later `if user:` guard can never evaluate to false. -/
theorem request_email_guard_unreachable (email : String) (db : List User) :
    (get_user_by_email email db = none →
      request_email email db =
        { result := .pyError "AttributeError", sends := [], guardEval := none }) ∧
    (request_email email db).guardEval ≠ some false := by
  unfold request_email
  cases h : get_user_by_email email db with
  | none => simp
  | some user =>
    by_cases hc : user.confirmed
    · simp [hc]
    · simp [hc]

/-- Witness for C10: requesting confirmation for an email with no user record
dereferences `None` (uncaught `AttributeError`). -/
theorem request_email_guard_unreachable_witness :
    request_email "ghost@example.com" [] =
      { result := .pyError "AttributeError", sends := [], guardEval := none } ∧
    (request_email "ghost@example.com" ([] : List User)).guardEval ≠ some false :=
  ⟨(request_email_guard_unreachable "ghost@example.com" []).1 rfl,
   (request_email_guard_unreachable "ghost@example.com" []).2⟩

/-- Contact with birthday June 8 (exactly today + 7 when today is June 1). -/
def june8Contact : Contact :=
  { id := 2, user_id := 10, first_name := "WindowIn", last_name := "Eight",
    email := "w8@example.com", phone_number := "8",
    birthday_date := { year := 1990, month := 6, day := 8 } }

/-- Contact with birthday June 9 (one day past the window). -/
def june9Contact : Contact :=
  { id := 3, user_id := 10, first_name := "WindowOut", last_name := "Nine",
    email := "w9@example.com", phone_number := "9",
    birthday_date := { year := 1985, month := 6, day := 9 } }

/-- Contact with birthday May 31 (one day before the window). -/
def may31Contact : Contact :=
  { id := 4, user_id := 10, first_name := "Past", last_name := "ThirtyOne",
    email := "w31@example.com", phone_number := "31",
    birthday_date := { year := 2000, month := 5, day := 31 } }

/-- The three boundary contacts, all owned by `aliceUser`. -/
def birthdayDb : List Contact := [june8Contact, june9Contact, may31Contact]

/-- June 1, 2024. -/
def today0601 : PyDate := { year := 2024, month := 6, day := 1 }

/-- C2: Upcoming-birthdays window — a contact of the owner is returned by
`get_contacts_upcoming_birthdays` iff, after replacing its birthday's year with
the current year, `today.day_of_year <= candidate.day_of_year <=
(today + 7).day_of_year` (stated on birthdays that remain valid dates in the
current year, where `replaceYear` agrees with Python's `date.replace`). -/
theorem upcoming_birthdays_window (date_today : PyDate) (user : User) (db : List Contact)
    (c : Contact) (hc : c ∈ db) (hOwn : c.user_id = user.id)
    (hValid : validDate (replaceYear c.birthday_date date_today.year) = true) :
    c ∈ get_contacts_upcoming_birthdays date_today user db ↔
      (dayOfYear date_today ≤ dayOfYear (replaceYear c.birthday_date date_today.year) ∧
       dayOfYear (replaceYear c.birthday_date date_today.year) ≤
         dayOfYear (addDays date_today 7)) := by
  simp only [get_contacts_upcoming_birthdays, List.mem_filter, Bool.and_eq_true,
    decide_eq_true_eq, beq_iff_eq]
  constructor
  · rintro ⟨_, h1, h2⟩
    exact ⟨h1, h2⟩
  · rintro ⟨h1, h2⟩
    exact ⟨⟨hc, hOwn⟩, h1, h2⟩

/-- Witness for C2 at today = 2024-06-01: June 8 (exactly +7 days) is included;
June 9 and May 31 are excluded. -/
theorem upcoming_birthdays_window_witness :
    june8Contact ∈ get_contacts_upcoming_birthdays today0601 aliceUser birthdayDb ∧
    june9Contact ∉ get_contacts_upcoming_birthdays today0601 aliceUser birthdayDb ∧
    may31Contact ∉ get_contacts_upcoming_birthdays today0601 aliceUser birthdayDb :=
  ⟨(upcoming_birthdays_window today0601 aliceUser birthdayDb june8Contact
      (by decide) (by decide) (by decide)).mpr (by decide),
   by decide, by decide⟩

/-- C3: Year-boundary behaviour — with today = 2024-12-29 (so today + 7 =
2025-01-05, whose day-of-year ordinal 5 is below today's 364) the ordinal
comparison cannot hold for any candidate, so `get_contacts_upcoming_birthdays`
returns no contact at all for any store — in particular none from the
early-January part of the window; and the day-of-year ordinal of a fixed
month/day after February shifts by one day between a leap and a non-leap
year. -/
theorem upcoming_birthdays_year_boundary (user : User) (db : List Contact) :
    get_contacts_upcoming_birthdays { year := 2024, month := 12, day := 29 } user db = [] ∧
    dayOfYear { year := 2024, month := 3, day := 1 } =
      dayOfYear { year := 2023, month := 3, day := 1 } + 1 := by
  constructor
  · simp only [get_contacts_upcoming_birthdays]
    rw [List.filter_eq_nil_iff]
    intro c hc
    simp only [Bool.and_eq_true, decide_eq_true_eq, not_and]
    intro h1 h2
    have e1 : dayOfYear { year := 2024, month := 12, day := 29 } = 364 := by decide
    have e2 : dayOfYear (addDays { year := 2024, month := 12, day := 29 } 7) = 5 := by decide
    rw [e1] at h1
    rw [e2] at h2
    omega
  · decide

/-- `get_user_by_email` is a first-match lookup. -/
theorem get_user_by_email_eq_find (email : String) (db : List User) :
    get_user_by_email email db = db.find? (fun u => u.email == email) :=
  List.filter_head? _ _

/-- After replacing (by id) the record that an email lookup finds, the same
lookup finds the replacement, provided ids identify records and the
replacement keeps the email. -/
theorem find_replaceFirst_email (email : String) (user user2 : User)
    (hemail : user2.email = email) (db : List User) :
    db.find? (fun u => u.email == email) = some user →
    (∀ v ∈ db, v.id = user.id → v = user) →
    (replaceFirst (fun u => u.id == user.id) user2 db).find? (fun u => u.email == email)
      = some user2 := by
  induction db with
  | nil =>
    intro h _
    simp at h
  | cons v rest ih =>
    intro h hId
    by_cases hv : v.email = email
    · have hvu : v = user := by
        rw [List.find?_cons_of_pos rest (by simp [hv])] at h
        exact Option.some.inj h
      subst hvu
      simp [replaceFirst, List.find?_cons_of_pos, hemail]
    · have h2 : rest.find? (fun u => u.email == email) = some user := by
        rw [List.find?_cons_of_neg rest (by simp [hv])] at h
        exact h
      have hue : user.email = email := by simpa using List.find?_some h2
      have hvid : ¬(v.id = user.id) := by
        intro hid
        have hveq := hId v (by simp) hid
        rw [hveq] at hv
        exact hv hue
      have hrep : replaceFirst (fun u => u.id == user.id) user2 (v :: rest) =
          v :: replaceFirst (fun u => u.id == user.id) user2 rest := by
        simp [replaceFirst, hvid]
      rw [hrep, List.find?_cons_of_neg _ (by simp [hv])]
      exact ih h2 (fun w hw => hId w (by simp [hw]))

/-- Evaluation of the refresh route once the presented token is known to decode
as a refresh token with a string subject. -/
theorem refresh_token_ok_eval (decode : String → JwtOutcome) (newA newR : String)
    (tok email : String) (db : List User)
    (hdec : decode tok = .decoded { sub := .str email, scope := .str "refresh_token" }) :
    refresh_token decode newA newR tok db =
      match get_user_by_email email db with
      | none => (.pyError "AttributeError", db)
      | some user =>
        if user.refresh_token != some tok then
          (.httpError 401 "Invalid refresh token", update_token user none db)
        else
          (.ok { access_token := newA, refresh_token := newR },
            update_token user (some newR) db) := by
  unfold refresh_token
  rw [hdec]
  simp [decode_refresh_token]

/-- C4: Refresh-token reuse detection and rotation — when the presented token
decodes as a refresh token for a stored user (ids identifying records in the
store): a presented token differing from the stored one clears the stored token
and fails 401; a matching token yields a fresh pair, the stored token becomes
the new refresh token, and a subsequent refresh presenting the old token
fails 401. -/
theorem refresh_token_rotation (decode : String → JwtOutcome)
    (newA newR newA2 newR2 : String) (tok : String) (db : List User)
    (email : String) (user : User)
    (hdec : decode tok = .decoded { sub := .str email, scope := .str "refresh_token" })
    (hlookup : get_user_by_email email db = some user)
    (hId : ∀ v ∈ db, v.id = user.id → v = user) :
    (user.refresh_token ≠ some tok →
      refresh_token decode newA newR tok db =
        (.httpError 401 "Invalid refresh token", update_token user none db)) ∧
    (user.refresh_token = some tok → newR ≠ tok →
      refresh_token decode newA newR tok db =
        (.ok { access_token := newA, refresh_token := newR },
          update_token user (some newR) db) ∧
      (refresh_token decode newA2 newR2 tok (update_token user (some newR) db)).1 =
        .httpError 401 "Invalid refresh token") := by
  have hmem : user.email = email := by
    rw [get_user_by_email_eq_find] at hlookup
    simpa using List.find?_some hlookup
  have hfind : db.find? (fun u => u.email == email) = some user := by
    rw [← get_user_by_email_eq_find]
    exact hlookup
  constructor
  · intro hne
    rw [refresh_token_ok_eval decode newA newR tok email db hdec]
    rw [get_user_by_email_eq_find, hfind]
    simp [bne_iff_ne, hne]
  · intro heq hner
    constructor
    · rw [refresh_token_ok_eval decode newA newR tok email db hdec]
      rw [get_user_by_email_eq_find, hfind]
      simp [bne_iff_ne, heq]
    · have hlookup2 : get_user_by_email email (update_token user (some newR) db) =
          some { user with refresh_token := some newR } := by
        rw [get_user_by_email_eq_find]
        unfold update_token
        exact find_replaceFirst_email email user
          { user with refresh_token := some newR } hmem db hfind hId
      rw [refresh_token_ok_eval decode newA2 newR2 tok email _ hdec]
      rw [hlookup2]
      have hne2 : ({ user with refresh_token := some newR } : User).refresh_token ≠
          some tok := by
        simp [hner]
      simp [bne_iff_ne, hne2]

/-- Decode oracle for concrete scenarios: only "tok1" decodes, as a refresh
token for carol. -/
def demoDecode : String → JwtOutcome := fun t =>
  if t == "tok1" then
    .decoded { sub := .str "carol@example.com", scope := .str "refresh_token" }
  else .malformed

/-- A confirmed user whose stored refresh token is "tok1". -/
def carolUser : User :=
  { id := 30, username := "carol", email := "carol@example.com",
    password := "hashC", confirmed := true, refresh_token := some "tok1" }

/-- Witness for C4: a matching refresh rotates the stored token, after which
presenting the old token fails 401. -/
theorem refresh_token_rotation_witness :
    refresh_token demoDecode "acc2" "ref2" "tok1" [carolUser] =
      (.ok { access_token := "acc2", refresh_token := "ref2" },
        update_token carolUser (some "ref2") [carolUser]) ∧
    (refresh_token demoDecode "acc3" "ref3" "tok1"
        (update_token carolUser (some "ref2") [carolUser])).1 =
      .httpError 401 "Invalid refresh token" :=
  (refresh_token_rotation demoDecode "acc2" "ref2" "acc3" "ref3" "tok1" [carolUser]
      "carol@example.com" carolUser (by decide) (by decide) (by decide)).2
    rfl (by decide)

/-- C9: Refresh with a valid token for a deleted user — when the token decodes
as a refresh token but no user has the subject email, the route dereferences
the `None` lookup result (`user.refresh_token`), raising an uncaught
`AttributeError`; it does not fail with a 401 Unauthorized. -/
theorem refresh_deleted_user (decode : String → JwtOutcome) (newA newR : String)
    (tok : String) (db : List User) (email : String)
    (hdec : decode tok = .decoded { sub := .str email, scope := .str "refresh_token" })
    (hnone : get_user_by_email email db = none) :
    refresh_token decode newA newR tok db = (.pyError "AttributeError", db) ∧
    ∀ detail, (refresh_token decode newA newR tok db).1 ≠ .httpError 401 detail := by
  have h := refresh_token_ok_eval decode newA newR tok email db hdec
  rw [hnone] at h
  refine ⟨h, ?_⟩
  intro detail
  rw [h]
  simp

/-- Witness for C9: refresh with carol's token against an empty user store
raises `AttributeError`. -/
theorem refresh_deleted_user_witness :
    refresh_token demoDecode "acc" "ref" "tok1" [] = (.pyError "AttributeError", []) ∧
    ∀ detail, (refresh_token demoDecode "acc" "ref" "tok1" ([] : List User)).1 ≠
      .httpError 401 detail :=
  refresh_deleted_user demoDecode "acc" "ref" "tok1" [] "carol@example.com"
    (by decide) rfl

/-- C5 counterexample: a well-signed token with scope `access_token` whose
payload lacks the `sub` key makes the current-user resolution raise an uncaught
`KeyError`, not the claimed 401 Unauthorized. -/
theorem access_token_missing_sub_counterexample :
    get_current_user (.decoded { sub := .absent, scope := .str "access_token" }) [] =
      .pyError "KeyError" ∧
    ∀ detail, (.pyError "KeyError" : PyResult User) ≠ .httpError 401 detail := by
  refine ⟨by decide, ?_⟩
  intro detail h
  exact PyResult.noConfusion h

/-- C5 (amended): decoding as an access token fails 401 when the signature is
invalid, the token expired or malformed, the scope claim is a present value
other than the string `access_token`, or the subject claim is present but
falsy (null or empty); an absent scope or subject key instead raises an
uncaught `KeyError`; otherwise the subject email is resolved to the stored
user (401 when no user has that email). -/
theorem access_token_decode_taxonomy (token : JwtOutcome) (db : List User) :
    (token = .badSignature ∨ token = .expired ∨ token = .malformed →
      get_current_user token db = .httpError 401 "Could not validate credentials") ∧
    (∀ payload s, token = .decoded payload → payload.scope = .str s →
      s ≠ "access_token" →
      get_current_user token db = .httpError 401 "Could not validate credentials") ∧
    (∀ payload, token = .decoded payload → payload.scope = .null →
      get_current_user token db = .httpError 401 "Could not validate credentials") ∧
    (∀ payload, token = .decoded payload → payload.scope = .absent →
      get_current_user token db = .pyError "KeyError") ∧
    (∀ payload, token = .decoded payload → payload.scope = .str "access_token" →
      payload.sub = .absent →
      get_current_user token db = .pyError "KeyError") ∧
    (∀ payload, token = .decoded payload → payload.scope = .str "access_token" →
      (payload.sub = .null ∨ payload.sub = .str "") →
      get_current_user token db = .httpError 401 "Could not validate credentials") ∧
    (∀ payload e, token = .decoded payload → payload.scope = .str "access_token" →
      payload.sub = .str e → e ≠ "" →
      get_current_user token db =
        (match get_user_by_email e db with
         | none => .httpError 401 "Could not validate credentials"
         | some user => .ok user)) := by
  refine ⟨?_, ?_, ?_, ?_, ?_, ?_, ?_⟩
  · rintro (rfl | rfl | rfl) <;> rfl
  · rintro ⟨sub, scope⟩ s rfl hs hne
    cases hs
    simp [get_current_user, hne]
  · rintro ⟨sub, scope⟩ rfl hs
    cases hs
    rfl
  · rintro ⟨sub, scope⟩ rfl hs
    cases hs
    rfl
  · rintro ⟨sub, scope⟩ rfl hs hsub
    cases hs
    cases hsub
    rfl
  · rintro ⟨sub, scope⟩ rfl hs (hsub | hsub) <;> cases hs <;> cases hsub <;> rfl
  · rintro ⟨sub, scope⟩ e rfl hs hsub hne
    cases hs
    cases hsub
    simp [get_current_user, hne]

/-- Witness for C5 (amended): an access-scoped check on a refresh-scoped token
fails 401. -/
theorem access_token_decode_taxonomy_witness :
    get_current_user (.decoded { sub := .str "a@b.io", scope := .str "refresh_token" })
      [] = .httpError 401 "Could not validate credentials" :=
  (access_token_decode_taxonomy
      (.decoded { sub := .str "a@b.io", scope := .str "refresh_token" }) []).2.1
    { sub := .str "a@b.io", scope := .str "refresh_token" } "refresh_token"
    rfl rfl (by decide)

/-- The bcrypt verifier of the counterexample store: no password verifies. -/
def verifyNever : String → String → Bool := fun _ _ => false

/-- An unconfirmed registered user. -/
def eveUser : User :=
  { id := 40, username := "eve", email := "eve@example.com",
    password := "hashE", confirmed := false, refresh_token := none }

/-- C8 counterexample: with an unconfirmed account, a login attempt whose email
exists but whose password is wrong returns 401 "Email not confirmed", while the
unknown-email attempt returns 401 "Invalid email or password" — the two
failure messages differ, revealing that the account exists. -/
theorem login_enumeration_counterexample :
    (login verifyNever "acc" "ref" "missing@example.com" "pw" [eveUser]).1 =
      .httpError 401 "Invalid email or password" ∧
    (login verifyNever "acc" "ref" "eve@example.com" "pw" [eveUser]).1 =
      .httpError 401 "Email not confirmed" ∧
    (.httpError 401 "Email not confirmed" : PyResult TokenPair) ≠
      .httpError 401 "Invalid email or password" := by
  refine ⟨by decide, by decide, by decide⟩

/-- C8 (amended): for login attempts against confirmed accounts the observable
failure is identical — 401 "Invalid email or password" — whether the email is
unknown or the password wrong, and nothing is mutated; an unconfirmed account,
however, returns 401 "Email not confirmed" regardless of the password, which
distinguishes an existing unconfirmed email from an unknown one. -/
theorem login_failure_uniformity (verify : String → String → Bool)
    (newA newR : String) (username password : String) (db : List User) :
    (get_user_by_email username db = none →
      login verify newA newR username password db =
        (.httpError 401 "Invalid email or password", db)) ∧
    (∀ user, get_user_by_email username db = some user → user.confirmed = true →
      verify password user.password = false →
      login verify newA newR username password db =
        (.httpError 401 "Invalid email or password", db)) ∧
    (∀ user, get_user_by_email username db = some user → user.confirmed = false →
      login verify newA newR username password db =
        (.httpError 401 "Email not confirmed", db)) := by
  refine ⟨?_, ?_, ?_⟩
  · intro h
    simp [login, h]
  · intro user h hc hv
    simp [login, h, hc, hv]
  · intro user h hc
    simp [login, h, hc]

/-- Witness for C8 (amended): unknown email, and wrong password on a confirmed
account, yield the identical 401 outcome. -/
theorem login_failure_uniformity_witness :
    login verifyNever "acc" "ref" "missing@example.com" "pw" [eveUser] =
      (.httpError 401 "Invalid email or password", [eveUser]) ∧
    login verifyNever "acc" "ref" "alice@example.com" "pw" [aliceUser] =
      (.httpError 401 "Invalid email or password", [aliceUser]) :=
  ⟨(login_failure_uniformity verifyNever "acc" "ref" "missing@example.com" "pw"
      [eveUser]).1 (by decide),
   (login_failure_uniformity verifyNever "acc" "ref" "alice@example.com" "pw"
      [aliceUser]).2.1 aliceUser (by decide) rfl rfl⟩
